import Mathlib

/-!
# Shallow embedding of the HORUS message catalog and C++ handle API

The definitions below are translated from the C++ headers of the HORUS
repository:

* `horus_library/cpp/include/horus/messages/geometry.hpp`
* `horus_library/cpp/include/horus/messages/control.hpp`
* `horus_library/cpp/include/horus/messages/sensor.hpp`
* `horus_library/cpp/include/horus/messages/vision.hpp`
* `horus_library/cpp/include/horus/messages/perception.hpp`
* `horus_library/cpp/include/horus/messages/navigation.hpp`
* `horus_library/cpp/include/horus/messages/diagnostics.hpp`
* `horus_cpp/include/horus.hpp`

Modelling conventions:

* `double` and `float` fields are modelled as exact rationals (`ℚ`).  Every
  rational models a finite floating-point value, so `std::isfinite` applied to
  such a field is constantly `true` (`Horus.Rat.isfinite` below).  The fields
  into which a constructor stores the literal `INFINITY` are instead modelled
  with the four-case type `Horus.DVal`, which keeps non-finite values
  representable exactly where the code creates them.
* `std::sqrt` is kept abstract: functions that need it take a parameter
  `sq : ℚ → ℚ`.  The claims proved about path lengths hold for every such
  function, in particular for the square root used by the code.
* Machine integers (`uint8_t`, `uint16_t`, `uint32_t`, `uint64_t`) are
  modelled as `ℕ`; wherever the C++ arithmetic can wrap (32-bit products in
  `OccupancyGrid::init`, `Image::set_data` and index computations) the model
  reduces modulo `2 ^ 32` exactly as the hardware does.
* Inline C arrays are modelled as total functions from the index type, with
  the element count kept in the structure exactly as in the source.  Inline
  byte strings (`char name[N]`) are modelled as `List ℕ` of length `N`.
* Every C++ constructor calls `update_timestamp()`, which reads the system
  clock; the clock reading is passed in as an explicit `now : ℕ` parameter.
* Padding bytes (`_padN` fields) carry no information and are omitted.
-/

namespace Horus

/-- Model of an IEEE double in the fields where the code stores `INFINITY`:
either a finite value (an exact rational), one of the two infinities, or NaN. -/
inductive DVal where
  | fin (q : ℚ)
  | inf
  | ninf
  | nan
deriving DecidableEq

/-- `std::isfinite` on a `DVal`. -/
def DVal.isfinite : DVal → Bool
  | .fin _ => true
  | _ => false

/-- `std::isinf` on a `DVal`. -/
def DVal.isinf : DVal → Bool
  | .inf => true
  | .ninf => true
  | _ => false

/-- `std::isfinite` on a double modelled as an exact rational: every rational
models a finite floating-point value, so the check is constantly `true`. -/
def Rat.isfinite (_ : ℚ) : Bool := true

/-- `2 ^ 32`: the modulus of 32-bit unsigned arithmetic. -/
def U32 : ℕ := 2 ^ 32

/-- `static_cast<int32_t>` applied to a `uint32_t` value: two's-complement
reinterpretation into `[-2^31, 2^31)`. -/
def toInt32 (n : ℕ) : ℤ :=
  if n % U32 < 2 ^ 31 then (n % U32 : ℤ) else (n % U32 : ℤ) - 2 ^ 32

/-- `Point3` (geometry.hpp): a 3D point with double coordinates. -/
structure Point3 where
  x : ℚ
  y : ℚ
  z : ℚ
deriving DecidableEq

/-- `Pose2D` (geometry.hpp). -/
structure Pose2D where
  x : ℚ
  y : ℚ
  theta : ℚ
  timestamp : ℕ
deriving DecidableEq

/-- `Pose2D()` default constructor. -/
def Pose2D.default (now : ℕ) : Pose2D :=
  { x := 0, y := 0, theta := 0, timestamp := now }

/-- `Pose2D(x, y, theta)`. -/
def Pose2D.make (now : ℕ) (x y theta : ℚ) : Pose2D :=
  { x := x, y := y, theta := theta, timestamp := now }

/-- `Pose2D::is_valid`: `isfinite(x) && isfinite(y) && isfinite(theta)`. -/
def Pose2D.is_valid (p : Pose2D) : Bool :=
  Rat.isfinite p.x && Rat.isfinite p.y && Rat.isfinite p.theta

/-- `Pose2D::distance_to`: `sqrt(dx*dx + dy*dy)`, with `std::sqrt` kept
abstract as the parameter `sq`. -/
def Pose2D.distance_to (sq : ℚ → ℚ) (p other : Pose2D) : ℚ :=
  sq ((p.x - other.x) * (p.x - other.x) + (p.y - other.y) * (p.y - other.y))

/-- `Twist` (geometry.hpp): `linear[3]`, `angular[3]`, `timestamp`. -/
structure Twist where
  linear : ℕ → ℚ
  angular : ℕ → ℚ
  timestamp : ℕ

/-- `Twist()` default constructor: all six components zero. -/
def Twist.default (now : ℕ) : Twist :=
  { linear := fun _ => 0, angular := fun _ => 0, timestamp := now }

/-- `Twist::is_valid`: all six components finite. -/
def Twist.is_valid (t : Twist) : Bool :=
  (List.range 3).all fun i =>
    Rat.isfinite (t.linear i) && Rat.isfinite (t.angular i)

/-- `Imu` (sensor.hpp). -/
structure Imu where
  orientation : ℕ → ℚ
  orientation_covariance : ℕ → ℚ
  angular_velocity : ℕ → ℚ
  angular_velocity_covariance : ℕ → ℚ
  linear_acceleration : ℕ → ℚ
  linear_acceleration_covariance : ℕ → ℚ
  timestamp : ℕ

/-- `Imu()` default constructor: identity quaternion, orientation covariance
filled with the `-1` sentinel, everything else zero. -/
def Imu.default (now : ℕ) : Imu :=
  { orientation := fun i => if i = 3 then 1 else 0
    orientation_covariance := fun _ => -1
    angular_velocity := fun _ => 0
    angular_velocity_covariance := fun _ => 0
    linear_acceleration := fun _ => 0
    linear_acceleration_covariance := fun _ => 0
    timestamp := now }

/-- `Imu::is_valid`: the quaternion, angular velocity and linear acceleration
entries are all finite. -/
def Imu.is_valid (m : Imu) : Bool :=
  ((List.range 4).all fun i => Rat.isfinite (m.orientation i)) &&
  ((List.range 3).all fun i =>
    Rat.isfinite (m.angular_velocity i) && Rat.isfinite (m.linear_acceleration i))

/-- `MotorCommand` (control.hpp). -/
structure MotorCommand where
  motor_id : ℕ
  mode : ℕ
  target : ℚ
  max_velocity : DVal
  max_acceleration : DVal
  feed_forward : ℚ
  enable : Bool
  timestamp : ℕ

/-- `MotorCommand::MODE_VELOCITY`. -/
def MotorCommand.MODE_VELOCITY : ℕ := 0

/-- `MotorCommand()` default constructor: note that `max_velocity` and
`max_acceleration` are initialised to `INFINITY`. -/
def MotorCommand.default (now : ℕ) : MotorCommand :=
  { motor_id := 0, mode := MotorCommand.MODE_VELOCITY, target := 0
    max_velocity := .inf, max_acceleration := .inf
    feed_forward := 0, enable := true, timestamp := now }

/-- `MotorCommand::is_valid`: `isfinite(target) && isfinite(max_velocity) &&
isfinite(max_acceleration) && isfinite(feed_forward)`. -/
def MotorCommand.is_valid (c : MotorCommand) : Bool :=
  Rat.isfinite c.target && c.max_velocity.isfinite &&
    c.max_acceleration.isfinite && Rat.isfinite c.feed_forward

/-- `PidConfig` (control.hpp). -/
structure PidConfig where
  controller_id : ℕ
  anti_windup : Bool
  kp : ℚ
  ki : ℚ
  kd : ℚ
  integral_limit : DVal
  output_limit : DVal
  timestamp : ℕ

/-- `PidConfig()` default constructor: note that `integral_limit` and
`output_limit` are initialised to `INFINITY`. -/
def PidConfig.default (now : ℕ) : PidConfig :=
  { controller_id := 0, anti_windup := true, kp := 0, ki := 0, kd := 0
    integral_limit := .inf, output_limit := .inf, timestamp := now }

/-- `PidConfig::is_valid`: all five gains/limits finite and the three gains
nonnegative. -/
def PidConfig.is_valid (c : PidConfig) : Bool :=
  Rat.isfinite c.kp && Rat.isfinite c.ki && Rat.isfinite c.kd &&
    c.integral_limit.isfinite && c.output_limit.isfinite &&
    decide (0 ≤ c.kp) && decide (0 ≤ c.ki) && decide (0 ≤ c.kd)

/-- `DifferentialDriveCommand` (control.hpp). -/
structure DifferentialDriveCommand where
  left_velocity : ℚ
  right_velocity : ℚ
  max_acceleration : DVal
  enable : Bool
  timestamp : ℕ

/-- `DifferentialDriveCommand()` default constructor. -/
def DifferentialDriveCommand.default (now : ℕ) : DifferentialDriveCommand :=
  { left_velocity := 0, right_velocity := 0, max_acceleration := .inf
    enable := true, timestamp := now }

/-- `DifferentialDriveCommand(left, right)` two-argument constructor. -/
def DifferentialDriveCommand.make (now : ℕ) (left right : ℚ) :
    DifferentialDriveCommand :=
  { left_velocity := left, right_velocity := right, max_acceleration := .inf
    enable := true, timestamp := now }

/-- `DifferentialDriveCommand::from_twist(linear, angular, wheel_base,
wheel_radius)`. -/
def DifferentialDriveCommand.from_twist (now : ℕ)
    (linear angular wheel_base wheel_radius : ℚ) : DifferentialDriveCommand :=
  DifferentialDriveCommand.make now
    ((linear - angular * wheel_base / 2) / wheel_radius)
    ((linear + angular * wheel_base / 2) / wheel_radius)

/-- `DifferentialDriveCommand::is_valid`: the two wheel velocities finite and
`max_acceleration` finite or infinite (NaN rejected). -/
def DifferentialDriveCommand.is_valid (c : DifferentialDriveCommand) : Bool :=
  Rat.isfinite c.left_velocity && Rat.isfinite c.right_velocity &&
    (c.max_acceleration.isfinite || c.max_acceleration.isinf)

/-- `ImageEncoding` (vision.hpp). -/
inductive ImageEncoding where
  | Mono8
  | Mono16
  | Rgb8
  | Bgr8
  | Rgba8
  | Bgra8
  | Yuv422
  | Mono32F
  | Rgb32F
  | BayerRggb8
  | Depth16
deriving DecidableEq

/-- `bytes_per_pixel(encoding)` (vision.hpp). -/
def bytes_per_pixel : ImageEncoding → ℕ
  | .Mono8 => 1
  | .Mono16 => 2
  | .Rgb8 => 3
  | .Bgr8 => 3
  | .Rgba8 => 4
  | .Bgra8 => 4
  | .Yuv422 => 2
  | .Mono32F => 4
  | .Rgb32F => 12
  | .BayerRggb8 => 1
  | .Depth16 => 2

/-- `Image` (vision.hpp): raw image with a 2 MiB inline data buffer. -/
structure Image where
  width : ℕ
  height : ℕ
  encoding : ImageEncoding
  step : ℕ
  data_length : ℕ
  data : ℕ → ℕ
  frame_id : List ℕ
  timestamp : ℕ

/-- `Image::MAX_DATA_SIZE = 2 * 1024 * 1024`. -/
def Image.MAX_DATA_SIZE : ℕ := 2 * 1024 * 1024

/-- `Image()` default constructor: zero dimensions, zeroed buffer. -/
def Image.default (now : ℕ) : Image :=
  { width := 0, height := 0, encoding := .Rgb8, step := 0, data_length := 0
    data := fun _ => 0, frame_id := List.replicate 32 0, timestamp := now }

/-- `Image::set_data(w, h, enc, img_data, len)`: rejects data longer than the
2 MiB buffer, otherwise overwrites the geometry fields and copies `len` bytes.
`step = w * bytes_per_pixel(enc)` is a 32-bit product. -/
def Image.set_data (img : Image) (now : ℕ) (w h : ℕ) (enc : ImageEncoding)
    (img_data : ℕ → ℕ) (len : ℕ) : Bool × Image :=
  if len > Image.MAX_DATA_SIZE then (false, img)
  else
    (true,
      { width := w, height := h, encoding := enc
        step := (w * bytes_per_pixel enc) % U32
        data_length := len
        data := fun i => if i < len then img_data i else img.data i
        frame_id := img.frame_id, timestamp := now })

/-- `Image::expected_size`: `step * height` (computed in `size_t`). -/
def Image.expected_size (img : Image) : ℕ := img.step * img.height

/-- `Image::is_valid`: positive dimensions, consistent `step` and
`data_length` within the buffer. -/
def Image.is_valid (img : Image) : Bool :=
  decide (0 < img.width) && decide (0 < img.height) &&
    decide ((img.width * bytes_per_pixel img.encoding) % U32 ≤ img.step) &&
    decide (img.expected_size ≤ img.data_length) &&
    decide (img.data_length ≤ Image.MAX_DATA_SIZE)

/-- `PointCloud` (perception.hpp).  The `fields` descriptor array is kept as
its count only; the payload is the inline byte buffer. -/
structure PointCloud where
  width : ℕ
  height : ℕ
  field_count : ℕ
  is_dense : Bool
  point_step : ℕ
  row_step : ℕ
  data_length : ℕ
  data : ℕ → ℕ
  frame_id : List ℕ
  timestamp : ℕ

/-- `PointCloud::MAX_DATA_SIZE = 2 * 1024 * 1024`. -/
def PointCloud.MAX_DATA_SIZE : ℕ := 2 * 1024 * 1024

/-- `PointCloud()` default constructor. -/
def PointCloud.default (now : ℕ) : PointCloud :=
  { width := 0, height := 0, field_count := 0, is_dense := true
    point_step := 0, row_step := 0, data_length := 0, data := fun _ => 0
    frame_id := List.replicate 32 0, timestamp := now }

/-- `PointCloud::point_count`: `width * height` as a 32-bit product. -/
def PointCloud.point_count (c : PointCloud) : ℕ := (c.width * c.height) % U32

/-- `PointCloud::is_valid`. -/
def PointCloud.is_valid (c : PointCloud) : Bool :=
  decide (0 < c.width) && decide (0 < c.height) && decide (0 < c.field_count) &&
    decide (0 < c.point_step) &&
    decide ((c.point_step * c.point_count) % U32 ≤ c.data_length) &&
    decide (c.data_length ≤ PointCloud.MAX_DATA_SIZE)

/-- `LaserScan` (sensor.hpp): 360 range readings plus scan parameters. -/
structure LaserScan where
  ranges : ℕ → ℚ
  angle_min : ℚ
  angle_max : ℚ
  range_min : ℚ
  range_max : ℚ
  angle_increment : ℚ
  time_increment : ℚ
  scan_time : ℚ
  timestamp : ℕ

/-- `LaserScan::is_range_valid(index)`: the reading lies in
`[range_min, range_max]` (readings are modelled as exact rationals, hence
always finite). -/
def LaserScan.is_range_valid (s : LaserScan) (index : ℕ) : Bool :=
  if index ≥ 360 then false
  else decide (s.range_min ≤ s.ranges index) && decide (s.ranges index ≤ s.range_max)

/-- The loop inside `LaserScan::min_range`: scan the indices `l`, keeping in
the accumulator the smallest reading seen so far among the valid ones. -/
def LaserScan.minFold (s : LaserScan) (l : List ℕ) (a : ℚ) : ℚ :=
  l.foldl
    (fun acc i =>
      if s.is_range_valid i && decide (s.ranges i < acc) then s.ranges i else acc)
    a

/-- `LaserScan::min_range`: the loop starts from the sentinel
`range_max + 1`; the final `≤ range_max` test maps "no valid reading" to
`0`. -/
def LaserScan.min_range (s : LaserScan) : ℚ :=
  let min_val := s.minFold (List.range 360) (s.range_max + 1)
  if min_val ≤ s.range_max then min_val else 0

/-- `DepthImage` (perception.hpp): depth values in millimetres, `0` invalid. -/
structure DepthImage where
  width : ℕ
  height : ℕ
  depths : ℕ → ℕ
  min_depth : ℕ
  max_depth : ℕ
  depth_scale : ℚ
  frame_id : List ℕ
  timestamp : ℕ

/-- `DepthImage::MAX_PIXELS = 1280 * 960`. -/
def DepthImage.MAX_PIXELS : ℕ := 1280 * 960

/-- `DepthImage::get_depth(x, y)`: bounds-checked read, `0` out of range. -/
def DepthImage.get_depth (img : DepthImage) (x y : ℕ) : ℕ :=
  if x < img.width ∧ y < img.height then img.depths (y * img.width + x) else 0

/-- `DepthImage::is_valid_depth(depth)`:
`depth > 0 && depth >= min_depth && depth <= max_depth`. -/
def DepthImage.is_valid_depth (img : DepthImage) (depth : ℕ) : Bool :=
  decide (0 < depth) && decide (img.min_depth ≤ depth) && decide (depth ≤ img.max_depth)

/-- Pixel coordinates `(x, y)` of an image in the row-major order that
`DepthImage::to_point_cloud` scans them (`y` outer, `x` inner). -/
def pixelsRowMajor (w h : ℕ) : List (ℕ × ℕ) :=
  (List.range h).flatMap fun y => (List.range w).map fun x => (x, y)

/-- One iteration body of `DepthImage::to_point_cloud`: back-project pixel
`(x, y)` with depth `d` through intrinsics `(fx, fy, cx, cy)`:
`z = d * depth_scale / 1000`, `x3d = (x - cx) * z / fx`,
`y3d = (y - cy) * z / fy`. -/
def DepthImage.backproject (img : DepthImage) (fx fy cx cy : ℚ) (p : ℕ × ℕ) :
    Point3 :=
  let depth_m : ℚ := ((img.get_depth p.1 p.2 : ℚ) * img.depth_scale) / 1000
  { x := ((p.1 : ℚ) - cx) * depth_m / fx
    y := ((p.2 : ℚ) - cy) * depth_m / fy
    z := depth_m }

/-- `MAX_POINTS = 10000`: capacity of the temporary point buffer inside
`DepthImage::to_point_cloud`. -/
def DepthImage.MAX_POINTS : ℕ := 10000

/-- The pixel scan loop of `DepthImage::to_point_cloud`: walk the remaining
pixels, keep valid ones, and stop as soon as `point_idx` (the `cnt`
argument) reaches `MAX_POINTS`. -/
def DepthImage.scanLoop (img : DepthImage) (fx fy cx cy : ℚ) :
    List (ℕ × ℕ) → ℕ → List Point3
  | [], _ => []
  | p :: rest, cnt =>
    if DepthImage.MAX_POINTS ≤ cnt then []
    else if img.is_valid_depth (img.get_depth p.1 p.2) then
      img.backproject fx fy cx cy p :: img.scanLoop fx fy cx cy rest (cnt + 1)
    else img.scanLoop fx fy cx cy rest cnt

/-- `DepthImage::to_point_cloud(fx, fy, cx, cy)`: the list of 3D points that
the function hands to `PointCloud::create_xyz` (which then packs them as
consecutive float triples). -/
def DepthImage.to_point_cloud (img : DepthImage) (fx fy cx cy : ℚ) : List Point3 :=
  img.scanLoop fx fy cx cy (pixelsRowMajor img.width img.height) 0

/-- Modelled directly from the spec sentence for C6: the valid pixels of the
image, in row-major order (`depth > 0` and `min_depth ≤ depth ≤ max_depth`). -/
def DepthImage.specValidPixels (img : DepthImage) : List (ℕ × ℕ) :=
  (pixelsRowMajor img.width img.height).filter fun p =>
    img.is_valid_depth (img.get_depth p.1 p.2)

/-- Modelled directly from the spec sentence for C6: back-projection of a
pixel `(u, v)` with depth `d`: `z = d * depth_scale / 1000`,
`x = (u - cx) * z / fx`, `y = (v - cy) * z / fy`. -/
def DepthImage.specBackproject (img : DepthImage) (fx fy cx cy : ℚ) (p : ℕ × ℕ) :
    Point3 :=
  let z : ℚ := ((img.get_depth p.1 p.2 : ℚ) * img.depth_scale) / 1000
  { x := ((p.1 : ℚ) - cx) * z / fx
    y := ((p.2 : ℚ) - cy) * z / fy
    z := z }

/-- `OccupancyGrid` (navigation.hpp): 2D occupancy map with an inline
`int8_t data[2000 * 2000]` buffer (modelled as a total function `ℕ → ℤ`). -/
structure OccupancyGrid where
  resolution : ℚ
  width : ℕ
  height : ℕ
  origin : Pose2D
  data_length : ℕ
  data : ℕ → ℤ
  frame_id : List ℕ
  timestamp : ℕ

/-- `OccupancyGrid::MAX_CELLS = 2000 * 2000`. -/
def OccupancyGrid.MAX_CELLS : ℕ := 2000 * 2000

/-- `OccupancyGrid()` default constructor: every cell unknown (`-1`). -/
def OccupancyGrid.default (now : ℕ) : OccupancyGrid :=
  { resolution := 5 / 100, width := 0, height := 0
    origin := Pose2D.default now, data_length := 0, data := fun _ => -1
    frame_id := List.replicate 32 0, timestamp := now }

/-- `OccupancyGrid::init(w, h, res, orig)`.  The guard `w * h > MAX_CELLS`
multiplies two `uint32_t` values, so the product wraps modulo `2 ^ 32`; on
success `memset(data, -1, data_length)` resets the first `data_length`
cells. -/
def OccupancyGrid.init (g : OccupancyGrid) (now : ℕ) (w h : ℕ) (res : ℚ)
    (orig : Pose2D) : Bool × OccupancyGrid :=
  if (w * h) % U32 > OccupancyGrid.MAX_CELLS then (false, g)
  else
    (true,
      { resolution := res, width := w, height := h, origin := orig
        data_length := (w * h) % U32
        data := fun i => if i < (w * h) % U32 then -1 else g.data i
        frame_id := g.frame_id, timestamp := now })

/-- `OccupancyGrid::world_to_grid(x, y)`:
`floor((x - origin.x) / resolution + EPSILON)` with `EPSILON = 1e-6`, then a
bounds check against `static_cast<int32_t>(width)` and
`static_cast<int32_t>(height)` — for a dimension at or above `2^31` the cast
wraps to a negative `int32_t`, so the check can never pass.  The conversion
of the floored double itself to `int32_t` is undefined in C++ outside
`[-2^31, 2^31)`; the model keeps the exact floor, which agrees with the
source wherever that conversion is defined (in particular whenever the
bounds check can succeed at all). -/
def OccupancyGrid.world_to_grid (g : OccupancyGrid) (x y : ℚ) : Option (ℕ × ℕ) :=
  let gx : ℤ := ⌊(x - g.origin.x) / g.resolution + 1 / 1000000⌋
  let gy : ℤ := ⌊(y - g.origin.y) / g.resolution + 1 / 1000000⌋
  if 0 ≤ gx ∧ gx < toInt32 g.width ∧ 0 ≤ gy ∧ gy < toInt32 g.height then
    some (gx.toNat, gy.toNat)
  else none

/-- `OccupancyGrid::grid_to_world(grid_x, grid_y)`: centre of the cell. -/
def OccupancyGrid.grid_to_world (g : OccupancyGrid) (grid_x grid_y : ℕ) :
    Option (ℚ × ℚ) :=
  if grid_x < g.width ∧ grid_y < g.height then
    some (g.origin.x + ((grid_x : ℚ) + 1 / 2) * g.resolution,
      g.origin.y + ((grid_y : ℚ) + 1 / 2) * g.resolution)
  else none

/-- `std::clamp(value, -1, 100)` on an `int8_t`. -/
def clampOcc (value : ℤ) : ℤ :=
  if value < -1 then -1 else if 100 < value then 100 else value

/-- `OccupancyGrid::get_occupancy(grid_x, grid_y)`: `-1` out of range.  The
flattened index `grid_y * width + grid_x` is 32-bit arithmetic. -/
def OccupancyGrid.get_occupancy (g : OccupancyGrid) (grid_x grid_y : ℕ) : ℤ :=
  if grid_x < g.width ∧ grid_y < g.height then
    let index := (grid_y * g.width + grid_x) % U32
    if index < g.data_length then g.data index else -1
  else -1

/-- `OccupancyGrid::set_occupancy(grid_x, grid_y, value)`: bounds-checked,
clamps the stored value into `[-1, 100]`. -/
def OccupancyGrid.set_occupancy (g : OccupancyGrid) (grid_x grid_y : ℕ)
    (value : ℤ) : Bool × OccupancyGrid :=
  if grid_x < g.width ∧ grid_y < g.height then
    let index := (grid_y * g.width + grid_x) % U32
    if index < g.data_length then
      (true,
        { g with data := fun i => if i = index then clampOcc value else g.data i })
    else (false, g)
  else (false, g)

/-- `Waypoint` (navigation.hpp). -/
structure Waypoint where
  pose : Pose2D
  velocity : Twist
  time_from_start : ℚ
  curvature : ℚ
  stop_required : Bool

/-- `Waypoint()` default constructor. -/
def Waypoint.default (now : ℕ) : Waypoint :=
  { pose := Pose2D.default now, velocity := Twist.default now
    time_from_start := 0, curvature := 0, stop_required := false }

/-- `Path` (navigation.hpp): inline array of 256 waypoints plus metadata. -/
structure Path where
  waypoints : ℕ → Waypoint
  waypoint_count : ℕ
  total_length : ℚ
  duration_seconds : ℚ
  frame_id : List ℕ
  algorithm : List ℕ
  timestamp : ℕ

/-- `Path()` default constructor. -/
def Path.default (now : ℕ) : Path :=
  { waypoints := fun _ => Waypoint.default now, waypoint_count := 0
    total_length := 0, duration_seconds := 0
    frame_id := List.replicate 32 0, algorithm := List.replicate 32 0
    timestamp := now }

/-- `Path::add_waypoint(wp)`: refuses once 256 waypoints are stored;
otherwise appends and accumulates `total_length` by the distance from the
previous waypoint (`sq` models `std::sqrt`, see `Pose2D.distance_to`). -/
def Path.add_waypoint (sq : ℚ → ℚ) (p : Path) (wp : Waypoint) : Bool × Path :=
  if 256 ≤ p.waypoint_count then (false, p)
  else
    let waypoints := fun i => if i = p.waypoint_count then wp else p.waypoints i
    let count := p.waypoint_count + 1
    let total_length :=
      if 1 < count then
        p.total_length +
          Pose2D.distance_to sq (p.waypoints (p.waypoint_count - 1)).pose wp.pose
      else p.total_length
    (true,
      { p with waypoints := waypoints, waypoint_count := count
               total_length := total_length })

/-- `Path::clear()`. -/
def Path.clear (p : Path) : Path :=
  { p with waypoint_count := 0, total_length := 0, duration_seconds := 0 }

/-- `JointCommand` (control.hpp): up to 16 joints with 32-byte name fields. -/
structure JointCommand where
  joint_names : ℕ → List ℕ
  joint_count : ℕ
  positions : ℕ → ℚ
  velocities : ℕ → ℚ
  efforts : ℕ → ℚ
  modes : ℕ → ℕ
  timestamp : ℕ

/-- `std::strncpy(dst, src, n)` on an inline byte field.  The C source string
`src` is modelled as its byte content before the terminating NUL; `strncpy`
writes `min(|src|, n)` source bytes, NUL-pads the rest of the first `n`
bytes, and leaves the bytes of `dst` beyond `n` untouched. -/
def strncpyBytes (dst src : List ℕ) (n : ℕ) : List ℕ :=
  (src.take n ++ List.replicate (n - src.length) 0) ++ dst.drop n

/-- `JointCommand::MODE_POSITION`. -/
def JointCommand.MODE_POSITION : ℕ := 0

/-- `JointCommand::MODE_VELOCITY`. -/
def JointCommand.MODE_VELOCITY : ℕ := 1

/-- `JointCommand::MODE_EFFORT`. -/
def JointCommand.MODE_EFFORT : ℕ := 2

/-- `JointCommand()` default constructor. -/
def JointCommand.default (now : ℕ) : JointCommand :=
  { joint_names := fun _ => List.replicate 32 0, joint_count := 0
    positions := fun _ => 0, velocities := fun _ => 0, efforts := fun _ => 0
    modes := fun _ => 0, timestamp := now }

/-- `JointCommand::add_position(name, position)`: refuses at 16 joints,
otherwise stores the name via `strncpy(.., 31)` plus an explicit NUL at byte
31, the position and the mode, and increments the count. -/
def JointCommand.add_position (c : JointCommand) (name : List ℕ) (position : ℚ) :
    Bool × JointCommand :=
  if 16 ≤ c.joint_count then (false, c)
  else
    let idx := c.joint_count
    (true,
      { c with
        joint_names := fun i =>
          if i = idx then (strncpyBytes (c.joint_names idx) name 31).set 31 0
          else c.joint_names i
        positions := fun i => if i = idx then position else c.positions i
        modes := fun i => if i = idx then JointCommand.MODE_POSITION else c.modes i
        joint_count := idx + 1 })

/-- `JointCommand::add_velocity(name, velocity)`. -/
def JointCommand.add_velocity (c : JointCommand) (name : List ℕ) (velocity : ℚ) :
    Bool × JointCommand :=
  if 16 ≤ c.joint_count then (false, c)
  else
    let idx := c.joint_count
    (true,
      { c with
        joint_names := fun i =>
          if i = idx then (strncpyBytes (c.joint_names idx) name 31).set 31 0
          else c.joint_names i
        velocities := fun i => if i = idx then velocity else c.velocities i
        modes := fun i => if i = idx then JointCommand.MODE_VELOCITY else c.modes i
        joint_count := idx + 1 })

/-- `JointCommand::add_effort(name, effort)`. -/
def JointCommand.add_effort (c : JointCommand) (name : List ℕ) (effort : ℚ) :
    Bool × JointCommand :=
  if 16 ≤ c.joint_count then (false, c)
  else
    let idx := c.joint_count
    (true,
      { c with
        joint_names := fun i =>
          if i = idx then (strncpyBytes (c.joint_names idx) name 31).set 31 0
          else c.joint_names i
        efforts := fun i => if i = idx then effort else c.efforts i
        modes := fun i => if i = idx then JointCommand.MODE_EFFORT else c.modes i
        joint_count := idx + 1 })

/-- `Path::set_frame_id(frame)` (navigation.hpp): `memset` to zero, then
`strncpy` of at most 31 bytes. -/
def Path.set_frame_id (p : Path) (frame : List ℕ) : Path :=
  { p with frame_id := strncpyBytes (List.replicate 32 0) frame 31 }

/-- `StatusLevel` (diagnostics.hpp). -/
inductive StatusLevel where
  | Ok
  | Warn
  | Error
  | Fatal
deriving DecidableEq

/-- `Status` (diagnostics.hpp): level, code, 128-byte message and 32-byte
component name. -/
structure Status where
  level : StatusLevel
  code : ℕ
  message : List ℕ
  component : List ℕ
  timestamp : ℕ

/-- `Status()` default constructor: zeroed strings. -/
def Status.default (now : ℕ) : Status :=
  { level := .Ok, code := 0, message := List.replicate 128 0
    component := List.replicate 32 0, timestamp := now }

/-- `Status::ok(msg)`: default-construct (zeroing `message`), then
`strncpy(s.message, msg, 127)`. -/
def Status.ok (now : ℕ) (msg : List ℕ) : Status :=
  { Status.default now with
    level := .Ok
    code := 0
    message := strncpyBytes (List.replicate 128 0) msg 127 }

/-- `Status::warn(code, msg)`. -/
def Status.warn (now : ℕ) (code : ℕ) (msg : List ℕ) : Status :=
  { Status.default now with
    level := .Warn
    code := code
    message := strncpyBytes (List.replicate 128 0) msg 127 }

/-- `Status::error(code, msg)`. -/
def Status.error (now : ℕ) (code : ℕ) (msg : List ℕ) : Status :=
  { Status.default now with
    level := .Error
    code := code
    message := strncpyBytes (List.replicate 128 0) msg 127 }

/-- `Status::fatal(code, msg)`. -/
def Status.fatal (now : ℕ) (code : ℕ) (msg : List ℕ) : Status :=
  { Status.default now with
    level := .Fatal
    code := code
    message := strncpyBytes (List.replicate 128 0) msg 127 }

/-- `Status::set_component(comp)`: plain `strncpy` of at most 31 bytes (no
`memset`), so byte 31 of the field is left untouched. -/
def Status.set_component (s : Status) (comp : List ℕ) : Status :=
  { s with component := strncpyBytes s.component comp 31 }

/-- `EmergencyStop` (diagnostics.hpp): 64-byte reason, 32-byte source. -/
structure EmergencyStop where
  engaged : Bool
  auto_reset : Bool
  reason : List ℕ
  source : List ℕ
  timestamp : ℕ

/-- `EmergencyStop()` default constructor. -/
def EmergencyStop.default (now : ℕ) : EmergencyStop :=
  { engaged := false, auto_reset := false, reason := List.replicate 64 0
    source := List.replicate 32 0, timestamp := now }

/-- `EmergencyStop::engage(reason)`: default-construct (zeroing `reason`),
set `engaged`, then `strncpy(estop.reason, rsn, 63)`. -/
def EmergencyStop.engage (now : ℕ) (rsn : List ℕ) : EmergencyStop :=
  { EmergencyStop.default now with
    engaged := true
    reason := strncpyBytes (List.replicate 64 0) rsn 63 }

/-- `EmergencyStop::set_source(src)`: plain `strncpy` of at most 31 bytes. -/
def EmergencyStop.set_source (e : EmergencyStop) (src : List ℕ) : EmergencyStop :=
  { e with source := strncpyBytes e.source src 31 }

/-- `GoalStatus` (navigation.hpp). -/
inductive GoalStatus where
  | Pending
  | Active
  | Succeeded
  | Aborted
  | Cancelled
  | Preempted
  | TimedOut
deriving DecidableEq

/-- `GoalResult` (navigation.hpp): goal feedback with a 64-byte error
message. -/
structure GoalResult where
  goal_id : ℕ
  status : GoalStatus
  distance_to_goal : ℚ
  eta_seconds : ℚ
  progress : ℚ
  error_message : List ℕ
  timestamp : ℕ

/-- `GoalResult()` default constructor. -/
def GoalResult.default (now : ℕ) : GoalResult :=
  { goal_id := 0, status := .Pending, distance_to_goal := 0, eta_seconds := 0
    progress := 0, error_message := List.replicate 64 0, timestamp := now }

/-- `GoalResult::set_error(msg)`: `memset` to zero, then `strncpy` of at most
63 bytes. -/
def GoalResult.set_error (r : GoalResult) (msg : List ℕ) : GoalResult :=
  { r with error_message := strncpyBytes (List.replicate 64 0) msg 63 }

/-- `Publisher<T>` (horus.hpp): a typed view holding an opaque channel handle
(`Pub`, a 32-bit identifier; `0` marks the moved-from state). -/
structure Publisher where
  handle : ℕ

/-- `Publisher<T>::valid()`: `handle_ != 0`. -/
def Publisher.valid (p : Publisher) : Bool := p.handle != 0

/-- `Publisher(Publisher&& other)`: the move constructor copies the handle
and zeroes the source; the pair is `(moved-to, moved-from)`. -/
def Publisher.moveCtor (other : Publisher) : Publisher × Publisher :=
  ({ handle := other.handle }, { handle := 0 })

/-- `operator=(Publisher&& other)` for two distinct objects: the destination
takes the handle, the source is zeroed; the pair is `(moved-to, moved-from)`. -/
def Publisher.moveAssign (dst other : Publisher) : Publisher × Publisher :=
  ({ dst with handle := other.handle }, { other with handle := 0 })

/-- `Publisher<T>::send(data)`: throws on a moved-from handle, otherwise
forwards to the C ABI `::send` (kept abstract as `raw`). -/
def Publisher.send (raw : ℕ → Bool) (p : Publisher) : Except String Bool :=
  if p.handle = 0 then .error "Cannot send on moved-from publisher"
  else .ok (raw p.handle)

/-- `Subscriber<T>` (horus.hpp). -/
structure Subscriber where
  handle : ℕ

/-- `Subscriber<T>::valid()`: `handle_ != 0`. -/
def Subscriber.valid (s : Subscriber) : Bool := s.handle != 0

/-- `Subscriber(Subscriber&& other)` move constructor; the pair is
`(moved-to, moved-from)`. -/
def Subscriber.moveCtor (other : Subscriber) : Subscriber × Subscriber :=
  ({ handle := other.handle }, { handle := 0 })

/-- `operator=(Subscriber&& other)` for two distinct objects. -/
def Subscriber.moveAssign (dst other : Subscriber) : Subscriber × Subscriber :=
  ({ dst with handle := other.handle }, { other with handle := 0 })

/-- `Subscriber<T>::recv(data)`: throws on a moved-from handle, otherwise
forwards to the C ABI `::recv` (kept abstract as `raw`). -/
def Subscriber.recv (raw : ℕ → Bool) (s : Subscriber) : Except String Bool :=
  if s.handle = 0 then .error "Cannot receive on moved-from subscriber"
  else .ok (raw s.handle)

/-- `Subscriber<T>::try_recv(data)`: same guard, forwarding to
`::try_recv`. -/
def Subscriber.try_recv (raw : ℕ → Bool) (s : Subscriber) : Except String Bool :=
  if s.handle = 0 then .error "Cannot receive on moved-from subscriber"
  else .ok (raw s.handle)

/-- The readings of a scan that `is_range_valid` accepts, in index order
(used to state what `min_range` minimises over). -/
def LaserScan.validReadings (s : LaserScan) : List ℚ :=
  ((List.range 360).filter fun i => s.is_range_valid i).map s.ranges

/-- A sequence of `set_occupancy(gx, gy, value)` calls applied in order. -/
def OccupancyGrid.applySets (g : OccupancyGrid) : List (ℕ × ℕ × ℤ) → OccupancyGrid
  | [] => g
  | (gx, gy, v) :: rest => ((g.set_occupancy gx gy v).2).applySets rest

/-- An operation on a `Path`: either `add_waypoint(wp)` or `clear()`. -/
inductive PathOp where
  | add (wp : Waypoint)
  | clear

/-- Apply a sequence of `Path` operations in order. -/
def Path.applyOps (sq : ℚ → ℚ) : Path → List PathOp → Path
  | p, [] => p
  | p, .add wp :: rest => Path.applyOps sq (p.add_waypoint sq wp).2 rest
  | p, .clear :: rest => Path.applyOps sq p.clear rest

/-- The waypoints actually stored in a `Path`: the first `waypoint_count`
entries of the inline array. -/
def Path.storedWaypoints (p : Path) : List Waypoint :=
  (List.range p.waypoint_count).map p.waypoints

/-- Sum of the 2D distances between the poses of consecutive waypoints
(`0` for zero or one waypoint); `sq` models `std::sqrt` as in
`Pose2D.distance_to`. -/
def pathLength (sq : ℚ → ℚ) : List Waypoint → ℚ
  | [] => 0
  | [_] => 0
  | a :: b :: t => Pose2D.distance_to sq a.pose b.pose + pathLength sq (b :: t)

/-- Concrete 4×3 occupancy grid with unit resolution (witness fixture). -/
def witnessGrid : OccupancyGrid :=
  ((OccupancyGrid.default 0).init 0 4 3 1 (Pose2D.default 0)).2

/-- Concrete grid whose `init(65536, 65536, ..)` call wraps the 32-bit
product `w * h` to `0`, so the size guard passes with `data_length = 0`. -/
def overflowGrid : OccupancyGrid :=
  ((OccupancyGrid.default 0).init 0 65536 65536 1 (Pose2D.default 0)).2

/-- Concrete grid whose `init(2^31, 2, ..)` call wraps the 32-bit product
`w * h` to `0` and so passes the size guard, leaving `width = 2^31`: in the
source, `static_cast<int32_t>(width)` is then negative and `world_to_grid`
rejects every point. -/
def wideGrid : OccupancyGrid :=
  ((OccupancyGrid.default 0).init 0 2147483648 2 1 (Pose2D.default 0)).2

/-- A 2×2 grid freshly initialised and then written once (witness fixture). -/
def seededGrid : OccupancyGrid :=
  (((OccupancyGrid.default 0).init 0 2 2 1 (Pose2D.default 0)).2).applySets
    [(0, 0, 555)]

/-- Concrete laser scan with a single in-range reading at index 5
(witness fixture). -/
def witnessScan : LaserScan :=
  { ranges := fun i => if i = 5 then 7 else 0
    angle_min := -3, angle_max := 3
    range_min := 1, range_max := 30
    angle_increment := 1, time_increment := 0
    scan_time := 1, timestamp := 0 }

/-- Concrete 2×1 depth image with exactly one valid pixel (witness fixture). -/
def witnessDepthImage : DepthImage :=
  { width := 2, height := 1, depths := fun i => if i = 0 then 500 else 0
    min_depth := 200, max_depth := 10000, depth_scale := 1
    frame_id := List.replicate 32 0, timestamp := 0 }

/-- Concrete 101×100 depth image in which every one of the 10100 pixels is
valid, exceeding the 10000-point buffer of `to_point_cloud`. -/
def bigDepthImage : DepthImage :=
  { width := 101, height := 100, depths := fun _ => 500
    min_depth := 200, max_depth := 10000, depth_scale := 1
    frame_id := List.replicate 32 0, timestamp := 0 }

/-- A `Path` whose inline waypoint array is full (witness fixture). -/
def fullPath : Path :=
  { Path.default 0 with waypoint_count := 256 }

/-- A `JointCommand` whose joint slots are all taken (witness fixture). -/
def fullJointCommand : JointCommand :=
  { JointCommand.default 0 with joint_count := 16 }

end Horus

namespace Horus

/-!
## Claim theorems
-/

/-- C2: `DifferentialDriveCommand::from_twist(linear, angular, wheel_base,
wheel_radius)` (with `wheel_radius ≠ 0`) returns
`left_velocity = (linear − angular·wheel_base/2)/wheel_radius` and
`right_velocity = (linear + angular·wheel_base/2)/wheel_radius`; in
particular `from_twist(1.0, 0.5, 0.3, 0.05)` yields `left_velocity = 18.5`
and `right_velocity = 21.5`. -/
theorem c2_from_twist (now : ℕ) (linear angular wheel_base wheel_radius : ℚ)
    (h : wheel_radius ≠ 0) :
    (DifferentialDriveCommand.from_twist now linear angular wheel_base
        wheel_radius).left_velocity =
      (linear - angular * wheel_base / 2) / wheel_radius ∧
    (DifferentialDriveCommand.from_twist now linear angular wheel_base
        wheel_radius).right_velocity =
      (linear + angular * wheel_base / 2) / wheel_radius ∧
    (DifferentialDriveCommand.from_twist now 1 (1 / 2) (3 / 10)
        (1 / 20)).left_velocity = 37 / 2 ∧
    (DifferentialDriveCommand.from_twist now 1 (1 / 2) (3 / 10)
        (1 / 20)).right_velocity = 43 / 2 := by
  refine ⟨rfl, rfl, ?_, ?_⟩
  · show ((1 : ℚ) - 1 / 2 * (3 / 10) / 2) / (1 / 20) = 37 / 2
    norm_num
  · show ((1 : ℚ) + 1 / 2 * (3 / 10) / 2) / (1 / 20) = 43 / 2
    norm_num

/-- Witness for C2 at `from_twist(1.0, 0.5, 0.3, 0.05)`. -/
theorem c2_from_twist_witness :
    ((1 : ℚ) / 20 ≠ 0) ∧
    ((DifferentialDriveCommand.from_twist 0 1 (1 / 2) (3 / 10)
        (1 / 20)).left_velocity =
      (1 - (1 / 2) * (3 / 10) / 2) / (1 / 20) ∧
    (DifferentialDriveCommand.from_twist 0 1 (1 / 2) (3 / 10)
        (1 / 20)).right_velocity =
      (1 + (1 / 2) * (3 / 10) / 2) / (1 / 20) ∧
    (DifferentialDriveCommand.from_twist 0 1 (1 / 2) (3 / 10)
        (1 / 20)).left_velocity = 37 / 2 ∧
    (DifferentialDriveCommand.from_twist 0 1 (1 / 2) (3 / 10)
        (1 / 20)).right_velocity = 43 / 2) :=
  ⟨by simp, c2_from_twist 0 1 (1 / 2) (3 / 10) (1 / 20) (by simp)⟩

/-- C1 (corrected): for every clock reading, the default-constructed
`DifferentialDriveCommand`, `Twist`, `Pose2D` and `Imu` satisfy `is_valid()`
and carry the construction-time timestamp; the default-constructed
`MotorCommand` and `PidConfig` do NOT satisfy `is_valid()` (their limit
fields are initialised to `INFINITY`, which `is_valid` rejects as
non-finite), and the default-constructed `Image` and `PointCloud` do NOT
satisfy `is_valid()` (it requires positive dimensions, but the defaults are
zero); all eight carry the construction-time timestamp. -/
theorem c1_default_construction (now : ℕ) :
    ((DifferentialDriveCommand.default now).is_valid = true ∧
      (DifferentialDriveCommand.default now).timestamp = now) ∧
    ((Twist.default now).is_valid = true ∧ (Twist.default now).timestamp = now) ∧
    ((Pose2D.default now).is_valid = true ∧ (Pose2D.default now).timestamp = now) ∧
    ((Imu.default now).is_valid = true ∧ (Imu.default now).timestamp = now) ∧
    ((MotorCommand.default now).is_valid = false ∧
      (MotorCommand.default now).timestamp = now) ∧
    ((PidConfig.default now).is_valid = false ∧
      (PidConfig.default now).timestamp = now) ∧
    ((Image.default now).is_valid = false ∧ (Image.default now).timestamp = now) ∧
    ((PointCloud.default now).is_valid = false ∧
      (PointCloud.default now).timestamp = now) := by
  exact ⟨⟨rfl, rfl⟩, ⟨rfl, rfl⟩, ⟨rfl, rfl⟩, ⟨rfl, rfl⟩, ⟨rfl, rfl⟩,
    ⟨rfl, rfl⟩, ⟨rfl, rfl⟩, ⟨rfl, rfl⟩⟩

/-- Counterexample for C1 as stated: the default-constructed `MotorCommand`,
`PidConfig`, `Image` and `PointCloud` all fail `is_valid()`. -/
theorem c1_counterexample :
    (MotorCommand.default 0).is_valid = false ∧
    (PidConfig.default 0).is_valid = false ∧
    (Image.default 0).is_valid = false ∧
    (PointCloud.default 0).is_valid = false := by
  exact ⟨rfl, rfl, rfl, rfl⟩

/-- C7: `Publisher` and `Subscriber` handles are move-only and invalidated
after move: after move-construction or move-assignment, the moved-from
handle's `send` (publisher) or `recv`/`try_recv` (subscriber) raises an
error, its `valid()` is `false`, and the moved-to handle carries the
original channel handle unchanged. -/
theorem c7_move_semantics (p dst : Publisher) (s sdst : Subscriber)
    (rawSend rawRecv rawTry : ℕ → Bool) :
    (p.moveCtor.1.handle = p.handle ∧ p.moveCtor.2.valid = false ∧
      p.moveCtor.2.send rawSend = .error "Cannot send on moved-from publisher") ∧
    ((Publisher.moveAssign dst p).1.handle = p.handle ∧
      (Publisher.moveAssign dst p).2.valid = false ∧
      (Publisher.moveAssign dst p).2.send rawSend =
        .error "Cannot send on moved-from publisher") ∧
    (s.moveCtor.1.handle = s.handle ∧ s.moveCtor.2.valid = false ∧
      s.moveCtor.2.recv rawRecv = .error "Cannot receive on moved-from subscriber" ∧
      s.moveCtor.2.try_recv rawTry =
        .error "Cannot receive on moved-from subscriber") ∧
    ((Subscriber.moveAssign sdst s).1.handle = s.handle ∧
      (Subscriber.moveAssign sdst s).2.valid = false ∧
      (Subscriber.moveAssign sdst s).2.recv rawRecv =
        .error "Cannot receive on moved-from subscriber" ∧
      (Subscriber.moveAssign sdst s).2.try_recv rawTry =
        .error "Cannot receive on moved-from subscriber") :=
  ⟨⟨rfl, rfl, rfl⟩, ⟨rfl, rfl, rfl⟩, ⟨rfl, rfl, rfl, rfl⟩, ⟨rfl, rfl, rfl, rfl⟩⟩

end Horus

namespace Horus

/-- The `n` bytes that `strncpy(dst, src, n)` writes: at most `n` source
bytes, NUL-padded up to `n`. -/
theorem strncpyBlock_length (src : List ℕ) (n : ℕ) :
    (src.take n ++ List.replicate (n - src.length) 0).length = n := by
  simp
  omega

/-- The first `n` bytes of a field after `strncpy(dst, src, n)`. -/
theorem strncpyBytes_take (dst src : List ℕ) (n : ℕ) :
    (strncpyBytes dst src n).take n =
      src.take n ++ List.replicate (n - src.length) 0 :=
  List.take_left' (strncpyBlock_length src n)

/-- `strncpy(dst, src, n)` leaves the bytes of `dst` from index `n` on
untouched. -/
theorem strncpyBytes_drop (dst src : List ℕ) (n : ℕ) :
    (strncpyBytes dst src n).drop n = dst.drop n :=
  List.drop_left' (strncpyBlock_length src n)

/-- `strncpy(dst, src, n)` preserves the size of the destination field. -/
theorem strncpyBytes_length (dst src : List ℕ) (n : ℕ) (h : n ≤ dst.length) :
    (strncpyBytes dst src n).length = dst.length := by
  simp [strncpyBytes]
  omega

/-- C8: every operation that stores a string into a fixed-length inline field
(`Status::{ok, warn, error, fatal}`, `Status::set_component`,
`EmergencyStop::engage`, `EmergencyStop::set_source`, `Path::set_frame_id`,
`GoalResult::set_error`) copies at most `capacity - 1` bytes of the source
for an input string of any length (the `take` conjuncts show the stored
prefix is built from at most that many source bytes), and the stored field is
NUL-terminated: for the constructors that zero the field first, its last byte
is `0`; the plain-`strncpy` setters never touch the last byte, so a zero last
byte is preserved. -/
theorem c8_fixed_strings (now code : ℕ) (msg comp frame src rsn : List ℕ)
    (s : Status) (e : EmergencyStop) (r : GoalResult) (p : Path) :
    ((Status.ok now msg).message.length = 128 ∧
      (Status.ok now msg).message.take 127 =
        msg.take 127 ++ List.replicate (127 - msg.length) 0 ∧
      (Status.ok now msg).message.drop 127 = [0]) ∧
    ((Status.warn now code msg).message.length = 128 ∧
      (Status.warn now code msg).message.take 127 =
        msg.take 127 ++ List.replicate (127 - msg.length) 0 ∧
      (Status.warn now code msg).message.drop 127 = [0]) ∧
    ((Status.error now code msg).message.length = 128 ∧
      (Status.error now code msg).message.take 127 =
        msg.take 127 ++ List.replicate (127 - msg.length) 0 ∧
      (Status.error now code msg).message.drop 127 = [0]) ∧
    ((Status.fatal now code msg).message.length = 128 ∧
      (Status.fatal now code msg).message.take 127 =
        msg.take 127 ++ List.replicate (127 - msg.length) 0 ∧
      (Status.fatal now code msg).message.drop 127 = [0]) ∧
    ((s.set_component comp).component.take 31 =
        comp.take 31 ++ List.replicate (31 - comp.length) 0 ∧
      (s.set_component comp).component.drop 31 = s.component.drop 31) ∧
    ((EmergencyStop.engage now rsn).reason.length = 64 ∧
      (EmergencyStop.engage now rsn).reason.take 63 =
        rsn.take 63 ++ List.replicate (63 - rsn.length) 0 ∧
      (EmergencyStop.engage now rsn).reason.drop 63 = [0]) ∧
    ((e.set_source src).source.take 31 =
        src.take 31 ++ List.replicate (31 - src.length) 0 ∧
      (e.set_source src).source.drop 31 = e.source.drop 31) ∧
    ((p.set_frame_id frame).frame_id.length = 32 ∧
      (p.set_frame_id frame).frame_id.take 31 =
        frame.take 31 ++ List.replicate (31 - frame.length) 0 ∧
      (p.set_frame_id frame).frame_id.drop 31 = [0]) ∧
    ((r.set_error msg).error_message.length = 64 ∧
      (r.set_error msg).error_message.take 63 =
        msg.take 63 ++ List.replicate (63 - msg.length) 0 ∧
      (r.set_error msg).error_message.drop 63 = [0]) := by
  refine ⟨⟨?_, strncpyBytes_take (List.replicate 128 0) msg 127, ?_⟩,
    ⟨?_, strncpyBytes_take (List.replicate 128 0) msg 127, ?_⟩,
    ⟨?_, strncpyBytes_take (List.replicate 128 0) msg 127, ?_⟩,
    ⟨?_, strncpyBytes_take (List.replicate 128 0) msg 127, ?_⟩,
    ⟨strncpyBytes_take s.component comp 31, strncpyBytes_drop s.component comp 31⟩,
    ⟨?_, strncpyBytes_take (List.replicate 64 0) rsn 63, ?_⟩,
    ⟨strncpyBytes_take e.source src 31, strncpyBytes_drop e.source src 31⟩,
    ⟨?_, strncpyBytes_take (List.replicate 32 0) frame 31, ?_⟩,
    ⟨?_, strncpyBytes_take (List.replicate 64 0) msg 63, ?_⟩⟩
  · exact (strncpyBytes_length (List.replicate 128 0) msg 127 (by simp)).trans (by simp)
  · exact (strncpyBytes_drop (List.replicate 128 0) msg 127).trans (by decide)
  · exact (strncpyBytes_length (List.replicate 128 0) msg 127 (by simp)).trans (by simp)
  · exact (strncpyBytes_drop (List.replicate 128 0) msg 127).trans (by decide)
  · exact (strncpyBytes_length (List.replicate 128 0) msg 127 (by simp)).trans (by simp)
  · exact (strncpyBytes_drop (List.replicate 128 0) msg 127).trans (by decide)
  · exact (strncpyBytes_length (List.replicate 128 0) msg 127 (by simp)).trans (by simp)
  · exact (strncpyBytes_drop (List.replicate 128 0) msg 127).trans (by decide)
  · exact (strncpyBytes_length (List.replicate 64 0) rsn 63 (by simp)).trans (by simp)
  · exact (strncpyBytes_drop (List.replicate 64 0) rsn 63).trans (by decide)
  · exact (strncpyBytes_length (List.replicate 32 0) frame 31 (by simp)).trans (by simp)
  · exact (strncpyBytes_drop (List.replicate 32 0) frame 31).trans (by decide)
  · exact (strncpyBytes_length (List.replicate 64 0) msg 63 (by simp)).trans (by simp)
  · exact (strncpyBytes_drop (List.replicate 64 0) msg 63).trans (by decide)

end Horus

namespace Horus

/-- Floor computation at the heart of the grid round-trip: feeding the centre
of cell `n` back through `world_to_grid`'s formula recovers `n`. -/
theorem floor_center_div (res : ℚ) (hres : 0 < res) (o : ℚ) (n : ℕ) :
    ⌊(o + ((n : ℚ) + 1 / 2) * res - o) / res + 1 / 1000000⌋ = (n : ℤ) := by
  have h1 : (o + ((n : ℚ) + 1 / 2) * res - o) / res = (n : ℚ) + 1 / 2 := by
    rw [add_sub_cancel_left]
    exact mul_div_cancel_right₀ _ (ne_of_gt hres)
  have h2 : (n : ℚ) + 1 / 2 + 1 / 1000000 = (n : ℤ) + (1 / 2 + 1 / 1000000 : ℚ) := by
    push_cast
    ring
  rw [h1, h2, Int.floor_int_add]
  norm_num [Int.floor_eq_zero_iff]

/-- `static_cast<int32_t>` is the identity on values below `2^31`. -/
theorem toInt32_of_lt (n : ℕ) (h : n < 2 ^ 31) : toInt32 n = (n : ℤ) := by
  have h31 : (2 : ℕ) ^ 31 = 2147483648 := by norm_num
  have h32 : U32 = 4294967296 := by norm_num [U32]
  have hu : n % U32 = n := Nat.mod_eq_of_lt (by omega)
  unfold toInt32
  rw [hu, if_pos h, ← Int.natCast_mod, hu]

/-- C3 (corrected): for every `OccupancyGrid` with positive resolution whose
`width` and `height` are below `2^31` — so that
`static_cast<int32_t>(width)`/`(height)` keep their values — and every
in-range cell `(gx, gy)`, `grid_to_world(gx, gy)` succeeds, and feeding the
resulting world coordinates into `world_to_grid` (which computes
`floor((x − origin.x)/resolution + ε)`) yields back exactly `(gx, gy)`.
For a dimension at or above `2^31` (reachable through `init`'s 32-bit wrap)
the casted bound is negative and `world_to_grid` rejects every point. -/
theorem c3_grid_roundtrip (g : OccupancyGrid) (gx gy : ℕ)
    (hres : 0 < g.resolution) (hw : g.width < 2 ^ 31) (hh : g.height < 2 ^ 31)
    (hx : gx < g.width) (hy : gy < g.height) :
    ∃ x y : ℚ, g.grid_to_world gx gy = some (x, y) ∧
      g.world_to_grid x y = some (gx, gy) := by
  refine ⟨g.origin.x + ((gx : ℚ) + 1 / 2) * g.resolution,
    g.origin.y + ((gy : ℚ) + 1 / 2) * g.resolution, ?_, ?_⟩
  · unfold OccupancyGrid.grid_to_world
    rw [if_pos ⟨hx, hy⟩]
  · simp only [OccupancyGrid.world_to_grid]
    rw [floor_center_div g.resolution hres g.origin.x gx,
      floor_center_div g.resolution hres g.origin.y gy,
      toInt32_of_lt g.width hw, toInt32_of_lt g.height hh]
    rw [if_pos ⟨Int.natCast_nonneg gx, by exact_mod_cast hx,
      Int.natCast_nonneg gy, by exact_mod_cast hy⟩]
    simp

/-- Witness for C3 on the concrete 4×3 unit-resolution grid, cell (2, 1). -/
theorem c3_grid_roundtrip_witness :
    (0 : ℚ) < witnessGrid.resolution ∧ witnessGrid.width < 2 ^ 31 ∧
    witnessGrid.height < 2 ^ 31 ∧ 2 < witnessGrid.width ∧
    1 < witnessGrid.height ∧
    (∃ x y : ℚ, witnessGrid.grid_to_world 2 1 = some (x, y) ∧
      witnessGrid.world_to_grid x y = some (2, 1)) :=
  ⟨by decide, by decide, by decide, by decide, by decide,
    c3_grid_roundtrip witnessGrid 2 1 (by decide) (by decide) (by decide)
      (by decide) (by decide)⟩

/-- Counterexample for C3 as stated: `init(2^31, 2, 1, origin)` succeeds (the
32-bit product wraps past the size guard), producing a positive-resolution
grid with in-range cell `(0, 0)`; `grid_to_world(0, 0)` yields the cell
centre `(1/2, 1/2)`, but `world_to_grid(1/2, 1/2)` fails because
`static_cast<int32_t>(width)` is `-2^31`, so the round trip does not return
the cell. -/
theorem c3_counterexample :
    (((OccupancyGrid.default 0).init 0 2147483648 2 1 (Pose2D.default 0)).1 =
      true) ∧
    (0 : ℚ) < wideGrid.resolution ∧ 0 < wideGrid.width ∧ 0 < wideGrid.height ∧
    wideGrid.grid_to_world 0 0 = some (1 / 2, 1 / 2) ∧
    wideGrid.world_to_grid (1 / 2) (1 / 2) = none := by
  have horx : wideGrid.origin.x = 0 := by decide
  have hory : wideGrid.origin.y = 0 := by decide
  have hres : wideGrid.resolution = 1 := by decide
  refine ⟨by decide, by decide, by decide, by decide, ?_, ?_⟩
  · unfold OccupancyGrid.grid_to_world
    rw [if_pos (by decide : (0 : ℕ) < wideGrid.width ∧ (0 : ℕ) < wideGrid.height)]
    rw [horx, hory, hres]
    norm_num
  · simp only [OccupancyGrid.world_to_grid, horx, hory, hres]
    have hfl : ⌊((1 : ℚ) / 2 - 0) / 1 + 1 / 1000000⌋ = 0 := by
      norm_num [Int.floor_eq_zero_iff]
    rw [hfl]
    have htoi : toInt32 wideGrid.width = -2147483648 := by decide
    rw [if_neg ?hneg]
    case hneg =>
      rintro ⟨h1, h2, h3, h4⟩
      rw [htoi] at h2
      exact absurd h2 (by decide)

end Horus

namespace Horus

/-- Characterisation of `LaserScan::is_range_valid`. -/
theorem is_range_valid_spec (s : LaserScan) (i : ℕ) :
    s.is_range_valid i = true ↔
      i < 360 ∧ s.range_min ≤ s.ranges i ∧ s.ranges i ≤ s.range_max := by
  unfold LaserScan.is_range_valid
  split_ifs with h360
  · simp
    omega
  · simp
    intro _ _
    omega

/-- The `min_range` loop never exceeds its starting accumulator. -/
theorem minFold_le_init (s : LaserScan) (l : List ℕ) (a : ℚ) :
    s.minFold l a ≤ a := by
  induction l generalizing a with
  | nil => exact le_refl a
  | cons j t ih =>
    have hstep : s.minFold (j :: t) a =
        s.minFold t
          (if s.is_range_valid j && decide (s.ranges j < a) then s.ranges j else a) :=
      rfl
    rw [hstep]
    refine le_trans (ih _) ?_
    by_cases hc : (s.is_range_valid j && decide (s.ranges j < a)) = true
    · rw [if_pos hc]
      exact le_of_lt (of_decide_eq_true ((Bool.and_eq_true _ _).mp hc).2)
    · rw [if_neg hc]

/-- The `min_range` loop result is bounded by every valid reading it
visits. -/
theorem minFold_le_valid (s : LaserScan) (l : List ℕ) (a : ℚ) (i : ℕ)
    (hil : i ∈ l) (hv : s.is_range_valid i = true) :
    s.minFold l a ≤ s.ranges i := by
  induction l generalizing a with
  | nil => cases hil
  | cons j t ih =>
    have hstep : s.minFold (j :: t) a =
        s.minFold t
          (if s.is_range_valid j && decide (s.ranges j < a) then s.ranges j else a) :=
      rfl
    rw [hstep]
    rcases List.mem_cons.mp hil with rfl | hit
    · refine le_trans (minFold_le_init s t _) ?_
      by_cases hlt : s.ranges i < a
      · rw [if_pos (by simp [hv, hlt])]
      · rw [if_neg (by simp [hv, hlt])]
        exact le_of_not_lt hlt
    · exact ih _ hit

/-- The `min_range` loop result is either the starting accumulator or one of
the valid readings it visited. -/
theorem minFold_mem (s : LaserScan) (l : List ℕ) (a : ℚ) :
    s.minFold l a = a ∨
      ∃ i ∈ l, s.is_range_valid i = true ∧ s.minFold l a = s.ranges i := by
  induction l generalizing a with
  | nil => exact Or.inl rfl
  | cons j t ih =>
    have hstep : s.minFold (j :: t) a =
        s.minFold t
          (if s.is_range_valid j && decide (s.ranges j < a) then s.ranges j else a) :=
      rfl
    rw [hstep]
    rcases ih (if s.is_range_valid j && decide (s.ranges j < a) then s.ranges j
        else a) with heq | ⟨i, hit, hv, he⟩
    · by_cases hc : (s.is_range_valid j && decide (s.ranges j < a)) = true
      · right
        refine ⟨j, List.mem_cons_self _ _, ((Bool.and_eq_true _ _).mp hc).1, ?_⟩
        rw [heq, if_pos hc]
      · left
        rw [heq, if_neg hc]
    · exact Or.inr ⟨i, List.mem_cons_of_mem _ hit, hv, he⟩

/-- C4: whenever a `LaserScan` has at least one reading inside
`[range_min, range_max]`, `min_range()` returns the minimum over exactly
those readings — it is one of them and bounds all of them — and readings
outside the band never contribute; in particular, when `0 < range_min`, a
reading equal to `0` is never counted as valid. -/
theorem c4_min_range (s : LaserScan) (h : s.validReadings ≠ []) :
    s.min_range ∈ s.validReadings ∧ (∀ r ∈ s.validReadings, s.min_range ≤ r) ∧
    (0 < s.range_min → ∀ i, i < 360 → s.ranges i = 0 →
      s.is_range_valid i = false) := by
  obtain ⟨r0, hr0⟩ := List.exists_mem_of_ne_nil _ h
  obtain ⟨i0, hi0f, hr0eq⟩ := List.mem_map.mp hr0
  have hi0 := List.mem_filter.mp hi0f
  have hvmax : ∀ i, s.is_range_valid i = true → s.ranges i ≤ s.range_max :=
    fun i hv => ((is_range_valid_spec s i).mp hv).2.2
  have hMle : s.minFold (List.range 360) (s.range_max + 1) ≤ s.ranges i0 :=
    minFold_le_valid s (List.range 360) (s.range_max + 1) i0 hi0.1 hi0.2
  have hMmax : s.minFold (List.range 360) (s.range_max + 1) ≤ s.range_max :=
    hMle.trans (hvmax i0 hi0.2)
  have hmr : s.min_range = s.minFold (List.range 360) (s.range_max + 1) := by
    simp only [LaserScan.min_range]
    rw [if_pos hMmax]
  refine ⟨?_, ?_, ?_⟩
  · rcases minFold_mem s (List.range 360) (s.range_max + 1) with hMa | ⟨i, hi, hv, he⟩
    · rw [hMa] at hMmax
      linarith
    · rw [hmr, he]
      exact List.mem_map.mpr ⟨i, List.mem_filter.mpr ⟨hi, hv⟩, rfl⟩
  · intro r hr
    obtain ⟨i, hif, hieq⟩ := List.mem_map.mp hr
    have hi := List.mem_filter.mp hif
    rw [hmr, ← hieq]
    exact minFold_le_valid s _ _ i hi.1 hi.2
  · intro hmin i h360 hzero
    have hnle : ¬ (s.range_min ≤ 0) := not_le.mpr hmin
    simp [LaserScan.is_range_valid, hzero, hnle, show ¬ (360 ≤ i) from by omega]

/-- Witness for C4 on the concrete scan whose only in-band reading is `7`
at index 5. -/
theorem c4_min_range_witness :
    witnessScan.validReadings ≠ [] ∧
    (witnessScan.min_range ∈ witnessScan.validReadings ∧
      (∀ r ∈ witnessScan.validReadings, witnessScan.min_range ≤ r) ∧
      (0 < witnessScan.range_min → ∀ i, i < 360 → witnessScan.ranges i = 0 →
        witnessScan.is_range_valid i = false)) :=
  ⟨by decide, c4_min_range witnessScan (by decide)⟩

end Horus

namespace Horus

/-- C5: the inline capacities are enforced by the add operations.
`Path::add_waypoint` appends and returns `true` below 256 waypoints and
returns `false` leaving the path unchanged at 256;
`JointCommand::add_position/add_velocity/add_effort` append and return `true`
below 16 joints — each storing the joint name in a 32-byte field — and return
`false` leaving the command unchanged at 16; `Image::set_data` rejects data
longer than 2 MiB. -/
theorem c5_capacities :
    (∀ (sq : ℚ → ℚ) (p : Path) (wp : Waypoint), p.waypoint_count < 256 →
      (p.add_waypoint sq wp).1 = true ∧
      (p.add_waypoint sq wp).2.waypoint_count = p.waypoint_count + 1 ∧
      (p.add_waypoint sq wp).2.waypoints p.waypoint_count = wp) ∧
    (∀ (sq : ℚ → ℚ) (p : Path) (wp : Waypoint), p.waypoint_count = 256 →
      p.add_waypoint sq wp = (false, p)) ∧
    (∀ (c : JointCommand) (name : List ℕ) (v : ℚ), c.joint_count < 16 →
      (c.add_position name v).1 = true ∧
      (c.add_position name v).2.joint_count = c.joint_count + 1 ∧
      ((c.joint_names c.joint_count).length = 32 →
        ((c.add_position name v).2.joint_names c.joint_count).length = 32)) ∧
    (∀ (c : JointCommand) (name : List ℕ) (v : ℚ), c.joint_count = 16 →
      c.add_position name v = (false, c)) ∧
    (∀ (c : JointCommand) (name : List ℕ) (v : ℚ), c.joint_count < 16 →
      (c.add_velocity name v).1 = true ∧
      (c.add_velocity name v).2.joint_count = c.joint_count + 1 ∧
      ((c.joint_names c.joint_count).length = 32 →
        ((c.add_velocity name v).2.joint_names c.joint_count).length = 32)) ∧
    (∀ (c : JointCommand) (name : List ℕ) (v : ℚ), c.joint_count = 16 →
      c.add_velocity name v = (false, c)) ∧
    (∀ (c : JointCommand) (name : List ℕ) (v : ℚ), c.joint_count < 16 →
      (c.add_effort name v).1 = true ∧
      (c.add_effort name v).2.joint_count = c.joint_count + 1 ∧
      ((c.joint_names c.joint_count).length = 32 →
        ((c.add_effort name v).2.joint_names c.joint_count).length = 32)) ∧
    (∀ (c : JointCommand) (name : List ℕ) (v : ℚ), c.joint_count = 16 →
      c.add_effort name v = (false, c)) ∧
    (∀ (img : Image) (now w h : ℕ) (enc : ImageEncoding) (d : ℕ → ℕ) (len : ℕ),
      Image.MAX_DATA_SIZE < len → img.set_data now w h enc d len = (false, img)) := by
  refine ⟨?_, ?_, ?_, ?_, ?_, ?_, ?_, ?_, ?_⟩
  · intro sq p wp hlt
    have hn : ¬ 256 ≤ p.waypoint_count := by omega
    refine ⟨by simp [Path.add_waypoint, hn], by simp [Path.add_waypoint, hn], ?_⟩
    simp [Path.add_waypoint, hn]
  · intro sq p wp heq
    have hy : 256 ≤ p.waypoint_count := by omega
    simp [Path.add_waypoint, hy]
  · intro c name v hlt
    have hn : ¬ 16 ≤ c.joint_count := by omega
    refine ⟨by simp [JointCommand.add_position, hn],
      by simp [JointCommand.add_position, hn], ?_⟩
    intro hname
    have hsel : (c.add_position name v).2.joint_names c.joint_count =
        (strncpyBytes (c.joint_names c.joint_count) name 31).set 31 0 := by
      simp [JointCommand.add_position, hn]
    rw [hsel, List.length_set, strncpyBytes_length _ _ 31 (by omega)]
    exact hname
  · intro c name v heq
    have hy : 16 ≤ c.joint_count := by omega
    simp [JointCommand.add_position, hy]
  · intro c name v hlt
    have hn : ¬ 16 ≤ c.joint_count := by omega
    refine ⟨by simp [JointCommand.add_velocity, hn],
      by simp [JointCommand.add_velocity, hn], ?_⟩
    intro hname
    have hsel : (c.add_velocity name v).2.joint_names c.joint_count =
        (strncpyBytes (c.joint_names c.joint_count) name 31).set 31 0 := by
      simp [JointCommand.add_velocity, hn]
    rw [hsel, List.length_set, strncpyBytes_length _ _ 31 (by omega)]
    exact hname
  · intro c name v heq
    have hy : 16 ≤ c.joint_count := by omega
    simp [JointCommand.add_velocity, hy]
  · intro c name v hlt
    have hn : ¬ 16 ≤ c.joint_count := by omega
    refine ⟨by simp [JointCommand.add_effort, hn],
      by simp [JointCommand.add_effort, hn], ?_⟩
    intro hname
    have hsel : (c.add_effort name v).2.joint_names c.joint_count =
        (strncpyBytes (c.joint_names c.joint_count) name 31).set 31 0 := by
      simp [JointCommand.add_effort, hn]
    rw [hsel, List.length_set, strncpyBytes_length _ _ 31 (by omega)]
    exact hname
  · intro c name v heq
    have hy : 16 ≤ c.joint_count := by omega
    simp [JointCommand.add_effort, hy]
  · intro img now w h enc d len hlen
    simp [Image.set_data, hlen]

end Horus

namespace Horus

/-- Witness for C5: the empty path and joint command accept an element, the
full ones refuse it unchanged, and an oversize image buffer is rejected. -/
theorem c5_capacities_witness :
    ((Path.default 0).waypoint_count < 256 ∧
      ((Path.default 0).add_waypoint id (Waypoint.default 0)).1 = true ∧
      ((Path.default 0).add_waypoint id (Waypoint.default 0)).2.waypoint_count =
        (Path.default 0).waypoint_count + 1 ∧
      ((Path.default 0).add_waypoint id (Waypoint.default 0)).2.waypoints
        (Path.default 0).waypoint_count = Waypoint.default 0) ∧
    (fullPath.waypoint_count = 256 ∧
      fullPath.add_waypoint id (Waypoint.default 0) = (false, fullPath)) ∧
    ((JointCommand.default 0).joint_count < 16 ∧
      ((JointCommand.default 0).add_position [] 0).1 = true ∧
      (((JointCommand.default 0).add_position [] 0).2.joint_names
        (JointCommand.default 0).joint_count).length = 32) ∧
    (fullJointCommand.joint_count = 16 ∧
      fullJointCommand.add_position [] 0 = (false, fullJointCommand)) ∧
    (((JointCommand.default 0).add_velocity [] 0).1 = true ∧
      fullJointCommand.add_velocity [] 0 = (false, fullJointCommand)) ∧
    (((JointCommand.default 0).add_effort [] 0).1 = true ∧
      fullJointCommand.add_effort [] 0 = (false, fullJointCommand)) ∧
    (Image.MAX_DATA_SIZE < 2 * 1024 * 1024 + 1 ∧
      (Image.default 0).set_data 0 1 1 .Mono8 (fun _ => 0) (2 * 1024 * 1024 + 1) =
        (false, Image.default 0)) :=
  ⟨⟨by decide,
    (c5_capacities.1 id (Path.default 0) (Waypoint.default 0) (by decide)).1,
    (c5_capacities.1 id (Path.default 0) (Waypoint.default 0) (by decide)).2.1,
    (c5_capacities.1 id (Path.default 0) (Waypoint.default 0) (by decide)).2.2⟩,
  ⟨by decide, c5_capacities.2.1 id fullPath (Waypoint.default 0) (by decide)⟩,
  ⟨by decide,
    (c5_capacities.2.2.1 (JointCommand.default 0) [] 0 (by decide)).1,
    (c5_capacities.2.2.1 (JointCommand.default 0) [] 0 (by decide)).2.2 (by decide)⟩,
  ⟨by decide, c5_capacities.2.2.2.1 fullJointCommand [] 0 (by decide)⟩,
  ⟨(c5_capacities.2.2.2.2.1 (JointCommand.default 0) [] 0 (by decide)).1,
    c5_capacities.2.2.2.2.2.1 fullJointCommand [] 0 (by decide)⟩,
  ⟨(c5_capacities.2.2.2.2.2.2.1 (JointCommand.default 0) [] 0 (by decide)).1,
    c5_capacities.2.2.2.2.2.2.2.1 fullJointCommand [] 0 (by decide)⟩,
  ⟨by decide,
    c5_capacities.2.2.2.2.2.2.2.2 (Image.default 0) 0 1 1 .Mono8 (fun _ => 0)
      (2 * 1024 * 1024 + 1) (by decide)⟩⟩

end Horus

namespace Horus

/-- The scan loop of `to_point_cloud` keeps exactly the first
`MAX_POINTS - cnt` valid pixels of the remaining scan order, each
back-projected. -/
theorem scanLoop_eq (img : DepthImage) (fx fy cx cy : ℚ) (l : List (ℕ × ℕ))
    (cnt : ℕ) :
    img.scanLoop fx fy cx cy l cnt =
      ((l.filter fun p => img.is_valid_depth (img.get_depth p.1 p.2)).take
        (DepthImage.MAX_POINTS - cnt)).map (img.backproject fx fy cx cy) := by
  induction l generalizing cnt with
  | nil => simp [DepthImage.scanLoop]
  | cons p t ih =>
    by_cases hge : DepthImage.MAX_POINTS ≤ cnt
    · have h0 : DepthImage.MAX_POINTS - cnt = 0 := by omega
      simp [DepthImage.scanLoop, hge, h0]
    · by_cases hv : img.is_valid_depth (img.get_depth p.1 p.2) = true
      · have hsub : DepthImage.MAX_POINTS - cnt =
            (DepthImage.MAX_POINTS - (cnt + 1)) + 1 := by omega
        simp [DepthImage.scanLoop, hge, hv, hsub, ih]
      · simp [DepthImage.scanLoop, hge, hv, ih]

/-- C6 (corrected): for nonzero intrinsics `fx`, `fy`,
`to_point_cloud(fx, fy, cx, cy)` produces one point for each of the first
`MAX_POINTS = 10000` valid pixels (`depth > 0` and
`min_depth ≤ depth ≤ max_depth`) in row-major order — valid pixels beyond
the 10000th are dropped — and each point obtained from pixel `(u, v)` with
depth `d` satisfies `z = d·depth_scale/1000`, `x = (u − cx)·z/fx`,
`y = (v − cy)·z/fy`. -/
theorem c6_to_point_cloud (img : DepthImage) (fx fy cx cy : ℚ)
    (hfx : fx ≠ 0) (hfy : fy ≠ 0) :
    img.to_point_cloud fx fy cx cy =
      (img.specValidPixels.take DepthImage.MAX_POINTS).map
        (img.specBackproject fx fy cx cy) := by
  have hbp : img.backproject fx fy cx cy = img.specBackproject fx fy cx cy := rfl
  unfold DepthImage.to_point_cloud
  rw [scanLoop_eq]
  simp [DepthImage.specValidPixels, hbp]

/-- Witness for C6 on the 2×1 depth image with one valid pixel. -/
theorem c6_to_point_cloud_witness :
    ((1 : ℚ) ≠ 0) ∧
    witnessDepthImage.to_point_cloud 1 1 0 0 =
      (witnessDepthImage.specValidPixels.take DepthImage.MAX_POINTS).map
        (witnessDepthImage.specBackproject 1 1 0 0) :=
  ⟨one_ne_zero, c6_to_point_cloud witnessDepthImage 1 1 0 0 one_ne_zero one_ne_zero⟩

/-- Membership in the row-major pixel enumeration gives the coordinate
bounds. -/
theorem pixelsRowMajor_mem {w h : ℕ} {p : ℕ × ℕ} (hp : p ∈ pixelsRowMajor w h) :
    p.1 < w ∧ p.2 < h := by
  unfold pixelsRowMajor at hp
  simp only [List.mem_flatMap, List.mem_map, List.mem_range] at hp
  obtain ⟨y, hy, x, hx, hpe⟩ := hp
  subst hpe
  exact ⟨hx, hy⟩

/-- The row-major enumeration of a `w × h` image has `w * h` entries. -/
theorem pixelsRowMajor_length (w h : ℕ) :
    (pixelsRowMajor w h).length = h * w := by
  unfold pixelsRowMajor
  rw [List.length_flatMap]
  have hc : (List.length ∘ fun y : ℕ => List.map (fun x => (x, y)) (List.range w)) =
      fun _ => w := by
    funext y
    simp
  rw [hc, List.map_const', List.sum_replicate, List.length_range, smul_eq_mul]

/-- Counterexample for C6 as stated: on a 101×100 image whose 10100 pixels
are all valid, `to_point_cloud` produces only 10000 points, not one per
valid pixel. -/
theorem c6_counterexample :
    (bigDepthImage.to_point_cloud 1 1 0 0).length ≠
      bigDepthImage.specValidPixels.length := by
  have hfil : bigDepthImage.specValidPixels =
      pixelsRowMajor bigDepthImage.width bigDepthImage.height := by
    unfold DepthImage.specValidPixels
    refine List.filter_eq_self.mpr ?_
    intro p hp
    obtain ⟨hx, hy⟩ := pixelsRowMajor_mem hp
    have hd : bigDepthImage.get_depth p.1 p.2 = 500 := by
      unfold DepthImage.get_depth
      rw [if_pos ⟨hx, hy⟩]
      rfl
    rw [hd]
    decide
  have hPix : bigDepthImage.specValidPixels.length = 10100 := by
    rw [hfil, pixelsRowMajor_length]
    decide
  have hmain : (bigDepthImage.to_point_cloud 1 1 0 0).length = 10000 := by
    unfold DepthImage.to_point_cloud
    rw [scanLoop_eq, List.length_map, List.length_take]
    rw [show (pixelsRowMajor bigDepthImage.width bigDepthImage.height).filter
        (fun p => bigDepthImage.is_valid_depth (bigDepthImage.get_depth p.1 p.2)) =
          bigDepthImage.specValidPixels from rfl]
    rw [hPix]
    rfl
  rw [hmain, hPix]
  decide

end Horus

namespace Horus

/-- `std::clamp(value, -1, 100)` really lands in `[-1, 100]`. -/
theorem clampOcc_mem (v : ℤ) : -1 ≤ clampOcc v ∧ clampOcc v ≤ 100 := by
  unfold clampOcc
  split_ifs <;> omega

/-- `set_occupancy` never changes `data_length`. -/
theorem set_occupancy_data_length (g : OccupancyGrid) (gx gy : ℕ) (v : ℤ) :
    (g.set_occupancy gx gy v).2.data_length = g.data_length := by
  simp only [OccupancyGrid.set_occupancy]
  split_ifs <;> rfl

/-- Every cell after a `set_occupancy` call is either the old cell value or
the clamped new value. -/
theorem set_occupancy_data (g : OccupancyGrid) (gx gy : ℕ) (v : ℤ) (i : ℕ) :
    (g.set_occupancy gx gy v).2.data i = g.data i ∨
      (g.set_occupancy gx gy v).2.data i = clampOcc v := by
  by_cases h1 : gx < g.width ∧ gy < g.height
  · by_cases h2 : (gy * g.width + gx) % U32 < g.data_length
    · by_cases h3 : i = (gy * g.width + gx) % U32
      · right
        simp [OccupancyGrid.set_occupancy, h1, h2, h3]
      · left
        simp [OccupancyGrid.set_occupancy, h1, h2, h3]
    · left
      simp [OccupancyGrid.set_occupancy, h1, h2]
  · left
    simp [OccupancyGrid.set_occupancy, h1]

/-- A sequence of `set_occupancy` calls keeps every cell of the active data
region inside `[-1, 100]`, provided it started there. -/
theorem applySets_bounds (ops : List (ℕ × ℕ × ℤ)) :
    ∀ g : OccupancyGrid,
      (∀ i, i < g.data_length → -1 ≤ g.data i ∧ g.data i ≤ 100) →
      ∀ i, i < (g.applySets ops).data_length →
        -1 ≤ (g.applySets ops).data i ∧ (g.applySets ops).data i ≤ 100 := by
  induction ops with
  | nil => exact fun g hg => hg
  | cons op rest ih =>
    rcases op with ⟨gx, gy, v⟩
    intro g hg
    exact ih (g.set_occupancy gx gy v).2 (fun i hi => by
      rcases set_occupancy_data g gx gy v i with he | he
      · rw [he]
        exact hg i ((set_occupancy_data_length g gx gy v) ▸ hi)
      · rw [he]
        exact clampOcc_mem v)

/-- C9 (corrected): after a successful `init` and any sequence of
`set_occupancy` calls, every cell of `data[0 .. data_length)` lies in
`[-1, 100]`; `set_occupancy` clamps into `[-1, 100]` and returns `true` for
in-range coordinates whose flattened 32-bit index lies inside `data_length`
— which covers all in-range coordinates whenever `init`'s `w * h` product
did not wrap (in particular whenever `w * h ≤ MAX_CELLS` exactly); and for
out-of-range coordinates `set_occupancy` returns `false` leaving the grid
unchanged while `get_occupancy` returns `-1`. -/
theorem c9_occupancy :
    (∀ (g : OccupancyGrid) (now w h : ℕ) (res : ℚ) (orig : Pose2D)
        (ops : List (ℕ × ℕ × ℤ)),
      (g.init now w h res orig).1 = true →
      ∀ i, i < (((g.init now w h res orig).2).applySets ops).data_length →
        -1 ≤ (((g.init now w h res orig).2).applySets ops).data i ∧
          (((g.init now w h res orig).2).applySets ops).data i ≤ 100) ∧
    (∀ (g : OccupancyGrid) (gx gy : ℕ) (v : ℤ), gx < g.width → gy < g.height →
      (gy * g.width + gx) % U32 < g.data_length →
      (g.set_occupancy gx gy v).1 = true ∧
      (g.set_occupancy gx gy v).2.data ((gy * g.width + gx) % U32) =
        clampOcc v ∧
      -1 ≤ clampOcc v ∧ clampOcc v ≤ 100) ∧
    (∀ (g : OccupancyGrid) (now w h : ℕ) (res : ℚ) (orig : Pose2D),
      w * h ≤ OccupancyGrid.MAX_CELLS →
      (g.init now w h res orig).1 = true ∧
      (∀ gx gy, gx < w → gy < h →
        (gy * w + gx) % U32 < (g.init now w h res orig).2.data_length)) ∧
    (∀ (g : OccupancyGrid) (gx gy : ℕ) (v : ℤ), g.width ≤ gx ∨ g.height ≤ gy →
      g.set_occupancy gx gy v = (false, g) ∧ g.get_occupancy gx gy = -1) := by
  refine ⟨?_, ?_, ?_, ?_⟩
  · intro g now w h res orig ops hinit
    by_cases hguard : (w * h) % U32 > OccupancyGrid.MAX_CELLS
    · exfalso
      simp [OccupancyGrid.init, hguard] at hinit
    · refine applySets_bounds ops (g.init now w h res orig).2 ?_
      intro i hi
      have hi2 : i < (w * h) % U32 := by
        simpa [OccupancyGrid.init, hguard] using hi
      have h2 : (g.init now w h res orig).2.data i = -1 := by
        simp [OccupancyGrid.init, hguard, hi2]
      rw [h2]
      exact ⟨le_refl _, by omega⟩
  · intro g gx gy v h1 h2 h3
    refine ⟨?_, ?_, clampOcc_mem v⟩
    · simp [OccupancyGrid.set_occupancy, h1, h2, h3]
    · simp [OccupancyGrid.set_occupancy, h1, h2, h3]
  · intro g now w h res orig hwh
    have h32 : U32 = 4294967296 := by norm_num [U32]
    have hMC : OccupancyGrid.MAX_CELLS = 4000000 := rfl
    have hlt : w * h < U32 := by
      rw [h32]
      rw [hMC] at hwh
      omega
    have hmod : (w * h) % U32 = w * h := Nat.mod_eq_of_lt hlt
    have hguard : ¬ ((w * h) % U32 > OccupancyGrid.MAX_CELLS) := by
      rw [hmod]
      exact not_lt.mpr hwh
    constructor
    · simp [OccupancyGrid.init, hguard]
    · intro gx gy hgx hgy
      have hdl : (g.init now w h res orig).2.data_length = (w * h) % U32 := by
        simp [OccupancyGrid.init, hguard]
      have hidx : gy * w + gx < w * h := by
        calc gy * w + gx < gy * w + w := by omega
          _ = (gy + 1) * w := by ring
          _ ≤ h * w := Nat.mul_le_mul_right w hgy
          _ = w * h := Nat.mul_comm h w
      have hmod2 : (gy * w + gx) % U32 = gy * w + gx :=
        Nat.mod_eq_of_lt (by omega)
      rw [hdl, hmod, hmod2]
      exact hidx
  · intro g gx gy v hor
    have hn : ¬ (gx < g.width ∧ gy < g.height) := by
      rintro ⟨ha, hb⟩
      rcases hor with hc | hc <;> omega
    constructor
    · simp [OccupancyGrid.set_occupancy, hn]
    · simp [OccupancyGrid.get_occupancy, hn]

/-- Counterexample for C9 as stated: `init(65536, 65536, ..)` succeeds
because the 32-bit product `65536 * 65536` wraps to `0 ≤ MAX_CELLS`, leaving
`data_length = 0`; `set_occupancy` on the in-range cell `(0, 0)` of the
resulting grid then returns `false` instead of `true`. -/
theorem c9_counterexample :
    ((OccupancyGrid.default 0).init 0 65536 65536 1 (Pose2D.default 0)).1 = true ∧
    0 < overflowGrid.width ∧ 0 < overflowGrid.height ∧
    (overflowGrid.set_occupancy 0 0 50).1 = false := by
  refine ⟨?_, ?_, ?_, ?_⟩ <;> decide

/-- Witness for C9 on small concrete grids. -/
theorem c9_occupancy_witness :
    ((((OccupancyGrid.default 0).init 0 2 2 1 (Pose2D.default 0)).1 = true) ∧
      0 < seededGrid.data_length ∧
      (-1 ≤ seededGrid.data 0 ∧ seededGrid.data 0 ≤ 100)) ∧
    (1 < witnessGrid.width ∧ 2 < witnessGrid.height ∧
      (2 * witnessGrid.width + 1) % U32 < witnessGrid.data_length ∧
      ((witnessGrid.set_occupancy 1 2 7).1 = true ∧
        (witnessGrid.set_occupancy 1 2 7).2.data
          ((2 * witnessGrid.width + 1) % U32) = clampOcc 7 ∧
        -1 ≤ clampOcc 7 ∧ clampOcc 7 ≤ 100)) ∧
    (2 * 2 ≤ OccupancyGrid.MAX_CELLS ∧
      ((OccupancyGrid.default 0).init 0 2 2 1 (Pose2D.default 0)).1 = true ∧
      (1 * 2 + 1) % U32 <
        ((OccupancyGrid.default 0).init 0 2 2 1 (Pose2D.default 0)).2.data_length) ∧
    (witnessGrid.width ≤ 10 ∧
      (witnessGrid.set_occupancy 10 0 5 = (false, witnessGrid) ∧
        witnessGrid.get_occupancy 10 0 = -1)) :=
  ⟨⟨by decide, by decide,
    c9_occupancy.1 (OccupancyGrid.default 0) 0 2 2 1 (Pose2D.default 0)
      [(0, 0, 555)] (by decide) 0 (by decide)⟩,
  ⟨by decide, by decide, by decide,
    c9_occupancy.2.1 witnessGrid 1 2 7 (by decide) (by decide) (by decide)⟩,
  ⟨by decide,
    (c9_occupancy.2.2.1 (OccupancyGrid.default 0) 0 2 2 1 (Pose2D.default 0)
      (by decide)).1,
    (c9_occupancy.2.2.1 (OccupancyGrid.default 0) 0 2 2 1 (Pose2D.default 0)
      (by decide)).2 1 1 (by decide) (by decide)⟩,
  ⟨by decide, c9_occupancy.2.2.2 witnessGrid 10 0 5 (Or.inl (by decide))⟩⟩

end Horus

namespace Horus

/-- Appending a waypoint extends the accumulated length by the distance from
the previous last waypoint (nothing for an empty path). -/
theorem pathLength_append (sq : ℚ → ℚ) (l : List Waypoint) (w : Waypoint) :
    pathLength sq (l ++ [w]) = pathLength sq l +
      (match l.getLast? with
        | none => 0
        | some a => Pose2D.distance_to sq a.pose w.pose) := by
  induction l with
  | nil => simp [pathLength]
  | cons a t ih =>
    cases t with
    | nil => simp [pathLength]
    | cons b t2 =>
      have heq : ∀ l : List Waypoint, pathLength sq (a :: b :: l) =
          Pose2D.distance_to sq a.pose b.pose + pathLength sq (b :: l) :=
        fun l => rfl
      have h1 : (a :: b :: t2) ++ [w] = a :: b :: (t2 ++ [w]) := rfl
      have h2 : b :: (t2 ++ [w]) = (b :: t2) ++ [w] := rfl
      rw [h1, heq, h2, ih, heq, List.getLast?_cons_cons]
      ring

/-- A successful `add_waypoint` appends to the stored waypoint list. -/
theorem storedWaypoints_add (sq : ℚ → ℚ) (p : Path) (wp : Waypoint)
    (h : p.waypoint_count < 256) :
    (p.add_waypoint sq wp).2.storedWaypoints = p.storedWaypoints ++ [wp] := by
  have hn : ¬ 256 ≤ p.waypoint_count := by omega
  unfold Path.storedWaypoints
  have hcount : (p.add_waypoint sq wp).2.waypoint_count = p.waypoint_count + 1 := by
    simp [Path.add_waypoint, hn]
  rw [hcount, List.range_succ, List.map_append]
  congr 1
  · apply List.map_congr_left
    intro i hi
    have hil : i < p.waypoint_count := List.mem_range.mp hi
    simp [Path.add_waypoint, hn, Nat.ne_of_lt hil]
  · simp [Path.add_waypoint, hn]

/-- The last stored waypoint of a nonempty path. -/
theorem storedWaypoints_getLast (p : Path) (m : ℕ) (h : p.waypoint_count = m + 1) :
    p.storedWaypoints.getLast? = some (p.waypoints m) := by
  unfold Path.storedWaypoints
  rw [h, List.range_succ, List.map_append]
  simp

/-- The `total_length` bookkeeping invariant survives every `add_waypoint`
and `clear` operation. -/
theorem applyOps_invariant (sq : ℚ → ℚ) (ops : List PathOp) :
    ∀ p : Path, p.total_length = pathLength sq p.storedWaypoints →
      (Path.applyOps sq p ops).total_length =
        pathLength sq (Path.applyOps sq p ops).storedWaypoints := by
  induction ops with
  | nil => exact fun p hp => hp
  | cons op rest ih =>
    intro p hp
    cases op with
    | add wp =>
      refine ih (p.add_waypoint sq wp).2 ?_
      by_cases hge : 256 ≤ p.waypoint_count
      · have hunch : p.add_waypoint sq wp = (false, p) := by
          simp [Path.add_waypoint, hge]
        rw [hunch]
        exact hp
      · have hcount : p.waypoint_count < 256 := by omega
        have htl : (p.add_waypoint sq wp).2.total_length =
            if 1 < p.waypoint_count + 1 then
              p.total_length +
                Pose2D.distance_to sq (p.waypoints (p.waypoint_count - 1)).pose wp.pose
            else p.total_length := by
          simp [Path.add_waypoint, hge]
        rw [storedWaypoints_add sq p wp hcount, pathLength_append, htl, hp]
        cases hc : p.waypoint_count with
        | zero =>
          have hstored : p.storedWaypoints = [] := by
            unfold Path.storedWaypoints
            rw [hc]
            rfl
          rw [hstored]
          simp [pathLength]
        | succ m =>
          rw [storedWaypoints_getLast p m hc]
          rw [if_pos (by omega)]
          rfl
    | clear =>
      refine ih p.clear ?_
      have hstored : p.clear.storedWaypoints = [] := rfl
      rw [hstored]
      rfl

/-- C10: for every `Path` built from a default-constructed `Path` by any
sequence of `add_waypoint` and `clear` calls, `total_length` equals the sum
of the pairwise distances (`Pose2D::distance_to`, i.e. the Euclidean 2D
distance computed with `sqrt`, held abstract as `sq`) between the poses of
consecutive stored waypoints, `0` for at most one waypoint. -/
theorem c10_total_length (sq : ℚ → ℚ) (now : ℕ) (ops : List PathOp) :
    (Path.applyOps sq (Path.default now) ops).total_length =
      pathLength sq (Path.applyOps sq (Path.default now) ops).storedWaypoints :=
  applyOps_invariant sq ops (Path.default now) rfl

end Horus
